import Mathlib

/-!
Verification of the transaction-assembly and fee-estimation logic of the
easymint repository (a Solana token front-end), shallowly embedded in Lean.

Modelling conventions:
* Solana public keys / addresses are modelled as `String` (the clients compare
  addresses by string equality of their base58 display form).
* `getAssociatedTokenAddress` and the metadata-PDA derivation are deterministic
  address derivations in the SPL libraries; they are modelled as injective
  string-tagging functions.
* JavaScript `number` values carried by requests (supply, amounts, fees) are
  modelled as exact rationals `ℚ`.  IEEE-754 doubles agree with this model
  whenever the values involved are exactly representable; every concrete input
  used in a theorem below is chosen so that the double computation is exact,
  so the rational model coincides with the JavaScript semantics there.
* A thrown JS error surfaced via `setError`, and an early `return` after
  `setError`, are modelled as a `failure` outcome carrying the message;
  a dispatched transaction is modelled as a `submitted` outcome carrying
  the ordered instruction list.
-/

namespace EasyMint

/-- `getAssociatedTokenAddress(mint, owner)` of `@solana/spl-token`:
a deterministic address derivation from the (mint, owner) pair. -/
def associatedTokenAddress (mint owner : String) : String :=
  "ata/" ++ mint ++ "/" ++ owner

/-- The metadata PDA `findProgramAddressSync(["metadata", programId, mint])`:
a deterministic address derivation from the mint. -/
def metadataPda (mint : String) : String :=
  "metadata/" ++ mint

/-- `AuthorityType` of `@solana/spl-token` (the two kinds used by the code). -/
inductive AuthorityType where
  | mintTokens
  | freezeAccount
deriving DecidableEq, Repr

/-- Abstract instruction descriptors: one constructor per SPL / Metaplex
instruction-builder call appearing in the repository, carrying the arguments
the code passes to that builder. -/
inductive Instr where
  | createAccount (fromPubkey newAccountPubkey : String) (space lamports : ℚ)
  | initializeMint (mint : String) (decimals : ℕ) (mintAuthority freezeAuthority : String)
  | createMetadataV3 (metadata mint mintAuthority payer updateAuthority : String)
      (name symbol uri : String)
  | createAssociatedTokenAccount (payer associatedToken owner mint : String)
  | mintTo (mint destination authority : String) (amount : ℚ)
  | setAuthority (mint currentAuthority : String) (authorityType : AuthorityType)
      (newAuthority : Option String)
  | freezeAccount (account mint authority : String)
  | thawAccount (account mint authority : String)
  | burn (account mint owner : String) (amount : ℤ)
deriving DecidableEq, Repr

/-- The tag (instruction type) of an instruction descriptor; for `setAuthority`
the authority kind is part of the type. -/
def Instr.itype : Instr → String
  | .createAccount .. => "CreateAccount"
  | .initializeMint .. => "InitializeMint"
  | .createMetadataV3 .. => "CreateMetadata"
  | .createAssociatedTokenAccount .. => "CreateAssociatedAccount"
  | .mintTo .. => "MintTo"
  | .setAuthority _ _ .mintTokens _ => "SetAuthorityMint"
  | .setAuthority _ _ .freezeAccount _ => "SetAuthorityFreeze"
  | .freezeAccount .. => "FreezeAccount"
  | .thawAccount .. => "ThawAccount"
  | .burn .. => "Burn"

/-- `true` exactly for `setAuthority` descriptors. -/
def Instr.isSetAuthority : Instr → Bool
  | .setAuthority .. => true
  | _ => false

/-- A `@solana/web3.js` `Transaction`: an ordered instruction list grown by
`transaction.add(...)`. -/
structure Transaction where
  instructions : List Instr := []
deriving DecidableEq, Repr

/-- `transaction.add(instruction)` appends at the end. -/
def Transaction.add (t : Transaction) (i : Instr) : Transaction :=
  { instructions := t.instructions ++ [i] }

/-- `MINT_SIZE` of `@solana/spl-token`. -/
def MINT_SIZE : ℚ := 82

/-- `CoinFormData` of `src/lib/createTokenWithUpload.ts` (the optional
`imageFile` is consumed only by the out-of-scope upload collaborator and is
omitted). -/
structure CoinFormData where
  name : String
  symbol : String
  description : String
  decimals : ℕ
  supply : ℚ
  revokeMintAuthority : Bool
  revokeFreezeAuthority : Bool
deriving DecidableEq, Repr

/-- `UltraCheapTokenData` of `src/lib/createTokenWithUpload.ts`. -/
structure UltraCheapTokenData where
  name : String
  symbol : String
  decimals : ℕ
  supply : ℚ
deriving DecidableEq, Repr

/-- `data.supply * Math.pow(10, data.decimals)` — the mint-amount formula used
verbatim by `createToken`, `createUltraCheapToken` and both fee estimators.
Note there is no `Math.floor` in the source here. -/
def mintAmount (supply : ℚ) (decimals : ℕ) : ℚ :=
  supply * 10 ^ decimals

/-- The transaction constructed by `createToken`
(`src/lib/createTokenWithUpload.ts`, lines 98–195): the instruction list added
to the `Transaction` after the metadata upload returned `metadataUri`.
`mintPubkey` is the freshly generated mint keypair's public key and `mintRent`
the fetched rent-exemption amount, both injected as parameters. -/
def createTokenTransaction (publicKey mintPubkey : String) (mintRent : ℚ)
    (metadataUri : String) (data : CoinFormData) : Transaction :=
  let metadataPDA := metadataPda mintPubkey
  let ata := associatedTokenAddress mintPubkey publicKey
  let t : Transaction := {}
  let t := t.add (.createAccount publicKey mintPubkey MINT_SIZE mintRent)
  let t := t.add (.initializeMint mintPubkey data.decimals publicKey publicKey)
  let t := t.add (.createMetadataV3 metadataPDA mintPubkey publicKey publicKey publicKey
    data.name data.symbol metadataUri)
  let t := t.add (.createAssociatedTokenAccount publicKey ata publicKey mintPubkey)
  let t := t.add (.mintTo mintPubkey ata publicKey (mintAmount data.supply data.decimals))
  let t := if data.revokeMintAuthority then
    t.add (.setAuthority mintPubkey publicKey .mintTokens none) else t
  let t := if data.revokeFreezeAuthority then
    t.add (.setAuthority mintPubkey publicKey .freezeAccount none) else t
  t

/-- The placeholder metadata URI used by `estimateCreateTokenFee`. -/
def placeholderUri : String := "https://example.com/metadata.json"

/-- The transaction constructed by `estimateCreateTokenFee`
(`src/lib/createTokenWithUpload.ts`, lines 396–483): identical construction,
with a temporary mint keypair and the placeholder URI instead of an upload. -/
def estimateCreateTokenTransaction (publicKey mintPubkey : String) (mintRent : ℚ)
    (data : CoinFormData) : Transaction :=
  let metadataPDA := metadataPda mintPubkey
  let ata := associatedTokenAddress mintPubkey publicKey
  let metadataUri := placeholderUri
  let t : Transaction := {}
  let t := t.add (.createAccount publicKey mintPubkey MINT_SIZE mintRent)
  let t := t.add (.initializeMint mintPubkey data.decimals publicKey publicKey)
  let t := t.add (.createMetadataV3 metadataPDA mintPubkey publicKey publicKey publicKey
    data.name data.symbol metadataUri)
  let t := t.add (.createAssociatedTokenAccount publicKey ata publicKey mintPubkey)
  let t := t.add (.mintTo mintPubkey ata publicKey (mintAmount data.supply data.decimals))
  let t := if data.revokeMintAuthority then
    t.add (.setAuthority mintPubkey publicKey .mintTokens none) else t
  let t := if data.revokeFreezeAuthority then
    t.add (.setAuthority mintPubkey publicKey .freezeAccount none) else t
  t

/-- The transaction constructed by `createUltraCheapToken`
(`src/lib/createTokenWithUpload.ts`, lines 264–305): mint creation,
initialization, associated account and minting only. -/
def createUltraCheapTokenTransaction (publicKey mintPubkey : String) (mintRent : ℚ)
    (data : UltraCheapTokenData) : Transaction :=
  let ata := associatedTokenAddress mintPubkey publicKey
  let t : Transaction := {}
  let t := t.add (.createAccount publicKey mintPubkey MINT_SIZE mintRent)
  let t := t.add (.initializeMint mintPubkey data.decimals publicKey publicKey)
  let t := t.add (.createAssociatedTokenAccount publicKey ata publicKey mintPubkey)
  let t := t.add (.mintTo mintPubkey ata publicKey (mintAmount data.supply data.decimals))
  t

/-! ## RevokeAuthoritiesClient (src/components/wallet-button.tsx) -/

/-- The slice of the `tokenInfo` state used by `RevokeAuthoritiesClient.onSubmit`:
the mint's authorities as resolved by `fetchTokenInfo` (`null` = revoked). -/
structure RevokeTokenInfo where
  mintAuthority : Option String
  freezeAuthority : Option String
deriving DecidableEq, Repr

/-- `RevokeFormData` (`revokeSchema`): token address plus the two checkboxes. -/
structure RevokeFormData where
  tokenAddress : String
  revokeMintAuthority : Bool
  revokeFreezeAuthority : Bool
deriving DecidableEq, Repr

/-- The non-address refinement of `revokeSchema`
(`src/components/wallet-button.tsx`, lines 452–457): at least one authority
must be selected.  (The schema additionally requires `tokenAddress` to parse
as a `PublicKey`; that external parse is not modelled.) -/
def revokeSchemaFlagsOk (data : RevokeFormData) : Bool :=
  data.revokeMintAuthority || data.revokeFreezeAuthority

/-- Outcome of a client submit handler: a surfaced error message, or a
transaction handed to `sendTransaction`. -/
inductive Outcome where
  | failure (message : String)
  | submitted (tx : Transaction)
deriving DecidableEq, Repr

/-- `RevokeAuthoritiesClient.onSubmit` (`src/components/wallet-button.tsx`,
lines 551–613), up to the `sendTransaction` call: the guard sequence and the
transaction construction.  `publicKey` is the connected wallet (or `none`)
and `tokenInfo` the resolved state (or `none`). -/
def revokeOnSubmit (publicKey : Option String) (tokenInfo : Option RevokeTokenInfo)
    (data : RevokeFormData) : Outcome :=
  match publicKey with
  | none => .failure "Please connect your wallet using the button in the top navigation bar."
  | some pk =>
    match tokenInfo with
    | none => .failure "Please select a valid token first."
    | some info =>
      if data.revokeMintAuthority && !(info.mintAuthority == some pk) then
        .failure "You do not have mint authority for this token."
      else if data.revokeFreezeAuthority && !(info.freezeAuthority == some pk) then
        .failure "You do not have freeze authority for this token."
      else if data.revokeMintAuthority && info.mintAuthority == none then
        .failure "Mint authority has already been revoked for this token."
      else if data.revokeFreezeAuthority && info.freezeAuthority == none then
        .failure "Freeze authority has already been revoked for this token."
      else
        let t : Transaction := {}
        let t := if data.revokeMintAuthority then
          t.add (.setAuthority data.tokenAddress pk .mintTokens none) else t
        let t := if data.revokeFreezeAuthority then
          t.add (.setAuthority data.tokenAddress pk .freezeAccount none) else t
        .submitted t

/-- `form.handleSubmit(onSubmit)`: the zod resolver rejects the form data
before `onSubmit` runs when the schema refinement fails. -/
def revokeFormSubmit (publicKey : Option String) (tokenInfo : Option RevokeTokenInfo)
    (data : RevokeFormData) : Option Outcome :=
  if revokeSchemaFlagsOk data then some (revokeOnSubmit publicKey tokenInfo data) else none

/-! ## FreezeTokensClient (src/unnamed/part_005) -/

/-- The `accountInfo` state resolved by `FreezeTokensClient.fetchAccountInfo`:
existence and frozen flag of the target associated token account (the
display-only `balance` string is omitted). -/
structure FreezeAccountInfo where
  accountExists : Bool
  frozen : Bool
deriving DecidableEq, Repr

/-- The `action` field of `freezeSchema`. -/
inductive FreezeAction where
  | freeze
  | unfreeze
deriving DecidableEq, Repr

/-- `FreezeFormData` of `freezeSchema`. -/
structure FreezeFormData where
  tokenAddress : String
  targetAddress : String
  action : FreezeAction
deriving DecidableEq, Repr

/-- `FreezeTokensClient.onSubmit` (`src/unnamed/part_005`, lines 173–248), up
to the `sendTransaction` call.  `accountInfo` is the state cached by
`fetchAccountInfo` (checked first), and `liveAccountExists` the result of the
second `getAccount` probe performed inside the handler. -/
def freezeOnSubmit (publicKey : Option String) (accountInfo : Option FreezeAccountInfo)
    (liveAccountExists : Bool) (data : FreezeFormData) : Outcome :=
  match publicKey with
  | none => .failure "Please connect your wallet using the button in the top navigation bar."
  | some pk =>
    let earlyError : Option String :=
      match accountInfo with
      | none => none
      | some ai =>
        if data.action == .freeze && ai.accountExists && ai.frozen then
          some "Cannot freeze account - it is already frozen."
        else if data.action == .unfreeze && (!ai.accountExists || !ai.frozen) then
          some (if ai.accountExists then "Cannot unfreeze account - it is already unfrozen."
                else "Cannot unfreeze account - it does not exist.")
        else none
    match earlyError with
    | some msg => .failure msg
    | none =>
      let tokenAccount := associatedTokenAddress data.tokenAddress data.targetAddress
      let t : Transaction := {}
      if liveAccountExists then
        match data.action with
        | .freeze => .submitted (t.add (.freezeAccount tokenAccount data.tokenAddress pk))
        | .unfreeze => .submitted (t.add (.thawAccount tokenAccount data.tokenAddress pk))
      else
        match data.action with
        | .freeze =>
          let t := t.add (.createAssociatedTokenAccount pk tokenAccount
            data.targetAddress data.tokenAddress)
          .submitted (t.add (.freezeAccount tokenAccount data.tokenAddress pk))
        | .unfreeze => .failure "Cannot unfreeze - token account does not exist"

/-! ## MintTokensClient (src/components/wallet-provider.tsx, second file) -/

/-- `MintFormData` of `mintSchema`. -/
structure MintFormData where
  tokenAddress : String
  recipientAddress : String
  amount : ℚ
deriving DecidableEq, Repr

/-- `MintTokensClient.onSubmit` (`src/components/wallet-provider.tsx`, lines
268–323), up to the `sendTransaction` call.  `resolvedDecimals` is the
decimals value parsed from the in-handler `getParsedAccountInfo` read (`none`
when that read does not yield a parsed mint), and `recipientAccountExists`
whether the in-handler `getAccount` probe of the recipient's associated
account succeeded. -/
def mintOnSubmit (publicKey : Option String) (resolvedDecimals : Option ℕ)
    (recipientAccountExists : Bool) (data : MintFormData) : Outcome :=
  match publicKey with
  | none => .failure "Please connect your wallet using the button in the top navigation bar."
  | some pk =>
    match resolvedDecimals with
    | none => .failure "Invalid token address"
    | some decimals =>
      let mintAmount : ℤ := ⌊data.amount * 10 ^ decimals⌋
      let recipientTokenAccount := associatedTokenAddress data.tokenAddress data.recipientAddress
      let t : Transaction := {}
      let t := if recipientAccountExists then t
        else t.add (.createAssociatedTokenAccount pk recipientTokenAccount
          data.recipientAddress data.tokenAddress)
      let t := t.add (.mintTo data.tokenAddress recipientTokenAccount pk (mintAmount : ℚ))
      .submitted t

/-! ## BurnTokensClient (src/unnamed/part_008) -/

/-- The slice of `tokenInfo` used by `BurnTokensClient.onSubmit`:
`userBalanceRaw` is optional in the source state type. -/
structure BurnTokenInfo where
  decimals : ℕ
  userBalanceRaw : Option ℕ
deriving DecidableEq, Repr

/-- `BurnFormData` of `burnSchema`. -/
structure BurnFormData where
  tokenAddress : String
  amount : ℚ
deriving DecidableEq, Repr

/-- The distinct error sites of `BurnTokensClient.onSubmit`, by message:
`noTokensToBurn` is "You have no tokens to burn for this token." and
`insufficientBalance` is the interpolated "Insufficient balance. ..." one. -/
inductive BurnError where
  | walletNotConnected
  | noTokenInfo
  | noTokensToBurn
  | insufficientBalance
deriving DecidableEq, Repr

/-- Outcome of the burn handler. -/
inductive BurnOutcome where
  | failure (error : BurnError)
  | submitted (tx : Transaction)
deriving DecidableEq, Repr

/-- `BurnTokensClient.onSubmit` (`src/unnamed/part_008`, lines 136–182), up to
the `sendTransaction` call.  The JS `!tokenInfo.userBalanceRaw ||
tokenInfo.userBalanceRaw === 0` guard treats a missing or zero raw balance
alike. -/
def burnOnSubmit (publicKey : Option String) (tokenInfo : Option BurnTokenInfo)
    (data : BurnFormData) : BurnOutcome :=
  match publicKey with
  | none => .failure .walletNotConnected
  | some pk =>
    match tokenInfo with
    | none => .failure .noTokenInfo
    | some info =>
      match info.userBalanceRaw with
      | none => .failure .noTokensToBurn
      | some bal =>
        if bal = 0 then .failure .noTokensToBurn
        else
          let burnAmountRaw : ℤ := ⌊data.amount * 10 ^ info.decimals⌋
          if burnAmountRaw > (bal : ℤ) then .failure .insufficientBalance
          else
            let userTokenAccount := associatedTokenAddress data.tokenAddress pk
            let t : Transaction := {}
            .submitted (t.add (.burn userTokenAccount data.tokenAddress pk burnAmountRaw))

/-! ## Fee estimators (src/lib/createTokenWithUpload.ts) -/

/-- The ledger responses consumed by the fee estimators.  `Except`-valued
fields model RPC calls that may throw (a thrown error is rethrown by the
estimator's catch-all).  `getFeeForMessage = none` models a connection without
that method (the fallback path); `some v` models the method returning
`{ value: v }`, where `v = none` is the RPC `null` fee. -/
structure LedgerEnv where
  mintRent : Except String ℚ
  tokenAccountRent : Except String ℚ
  metadataAccountRent : Except String ℚ
  getFeeForMessage : Option (Option ℚ)
  feeCalculator : Except String (Option ℚ)
deriving Repr

/-- JavaScript numeric addition coerces `null` to `0`: the value the source's
`... + value` expression contributes when `getFeeForMessage` returned a
`null` fee. -/
def nullAsZero : Option ℚ → ℚ
  | none => 0
  | some v => v

/-- The Metaplex protocol fee constant `0.01 * 1000000000` of the estimator. -/
def metaplexProtocolFee : ℚ := (1 / 100) * 1000000000

/-- The lamport total computed by `estimateCreateTokenFee`
(`src/lib/createTokenWithUpload.ts`, lines 353–526): rent fetches, then either
the `getFeeForMessage` path (whose possibly-`null` value is added unchecked)
or the fallback fee-calculator path (which throws when the calculator is
`null`).  `numRequiredSignatures` comes from the compiled message header. -/
def estimateCreateTokenFee (env : LedgerEnv) (numRequiredSignatures : ℕ) :
    Except String ℚ := do
  let mintRent ← env.mintRent
  let tokenAccountRent ← env.tokenAccountRent
  let metadataAccountRent ← env.metadataAccountRent
  match env.getFeeForMessage with
  | some value =>
    return mintRent + tokenAccountRent + metadataAccountRent + metaplexProtocolFee +
      nullAsZero value
  | none =>
    match (← env.feeCalculator) with
    | none => throw "Failed to fetch fee calculator for fee estimation"
    | some lamportsPerSignature =>
      return mintRent + tokenAccountRent + metadataAccountRent + metaplexProtocolFee +
        lamportsPerSignature * numRequiredSignatures

/-- The lamport total computed by `estimateUltraCheapTokenFee`
(`src/lib/createTokenWithUpload.ts`, lines 532–639): same structure without
the metadata rent and protocol fee. -/
def estimateUltraCheapTokenFee (env : LedgerEnv) (numRequiredSignatures : ℕ) :
    Except String ℚ := do
  let mintRent ← env.mintRent
  let tokenAccountRent ← env.tokenAccountRent
  match env.getFeeForMessage with
  | some value =>
    return mintRent + tokenAccountRent + nullAsZero value
  | none =>
    match (← env.feeCalculator) with
    | none => throw "Failed to fetch fee calculator for fee estimation"
    | some lamportsPerSignature =>
      return mintRent + tokenAccountRent + lamportsPerSignature * numRequiredSignatures

/-- A CreateToken request that is valid for `coinSchema` (supply ≥ 1, decimals
0–9; the schema does not require an integer supply) on which `createToken`
passes a non-integer amount to MintTo. -/
def fractionalSupplyData : CoinFormData :=
  { name := "Token", symbol := "TKN", description := "", decimals := 0, supply := 3 / 2,
    revokeMintAuthority := false, revokeFreezeAuthority := false }

/-! ## Claim theorems -/

/-- C1: for the same CreateToken request, the instruction sequence built by
`estimateCreateTokenFee` has the same instruction types in the same order as
the one built by `createToken`; the two constructions differ only in the
placeholder metadata URI and the temporary mint keypair (at the same mint and
the placeholder URI they are identical). -/
theorem estimate_submit_instruction_parity (publicKey mintReal mintEst : String)
    (mintRent : ℚ) (metadataUri : String) (data : CoinFormData) :
    ((createTokenTransaction publicKey mintReal mintRent metadataUri data).instructions.map
        Instr.itype
      = (estimateCreateTokenTransaction publicKey mintEst mintRent data).instructions.map
          Instr.itype)
    ∧ estimateCreateTokenTransaction publicKey mintReal mintRent data
      = createTokenTransaction publicKey mintReal mintRent placeholderUri data := by
  obtain ⟨n, s, d, dec, sup, rm, rf⟩ := data
  cases rm <;> cases rf <;> exact ⟨rfl, rfl⟩

/-- C2: the transaction built by `createToken` is always CreateAccount,
InitializeMint, CreateMetadata, CreateAssociatedAccount, MintTo, then
SetAuthority(Mint, null) exactly when `revokeMintAuthority` is set, then
SetAuthority(Freeze, null) exactly when `revokeFreezeAuthority` is set, and
nothing else. -/
theorem createToken_instruction_order (publicKey mintPubkey : String) (mintRent : ℚ)
    (metadataUri : String) (data : CoinFormData) :
    (createTokenTransaction publicKey mintPubkey mintRent metadataUri data).instructions =
      [Instr.createAccount publicKey mintPubkey MINT_SIZE mintRent,
       Instr.initializeMint mintPubkey data.decimals publicKey publicKey,
       Instr.createMetadataV3 (metadataPda mintPubkey) mintPubkey publicKey publicKey
         publicKey data.name data.symbol metadataUri,
       Instr.createAssociatedTokenAccount publicKey
         (associatedTokenAddress mintPubkey publicKey) publicKey mintPubkey,
       Instr.mintTo mintPubkey (associatedTokenAddress mintPubkey publicKey) publicKey
         (mintAmount data.supply data.decimals)]
      ++ (if data.revokeMintAuthority then
            [Instr.setAuthority mintPubkey publicKey .mintTokens none] else [])
      ++ (if data.revokeFreezeAuthority then
            [Instr.setAuthority mintPubkey publicKey .freezeAccount none] else []) := by
  obtain ⟨n, s, d, dec, sup, rm, rf⟩ := data
  cases rm <;> cases rf <;> rfl

/-- C3: the spec's scenario (decimals = 9, supply = 1 000 000 → exactly
10^15) does hold, but `createToken` and `createUltraCheapToken` apply no
truncation at all: at the schema-valid request supply = 3/2, decimals = 0 the
amount passed to MintTo is `mintAmount (3/2) 0 = 3/2`, not
floor(3/2 · 10^0) = 1. -/
theorem createToken_mint_amount_not_truncated :
    mintAmount 1000000 9 = 1000000000000000
    ∧ mintAmount (3 / 2) 0 = 3 / 2
    ∧ ⌊((3 : ℚ) / 2) * 10 ^ (0 : ℕ)⌋ = 1
    ∧ mintAmount (3 / 2) 0 ≠ ((1 : ℤ) : ℚ)
    ∧ (createTokenTransaction "payer" "mint" 100 "uri" fractionalSupplyData).instructions.getLast?
        = some (.mintTo "mint" (associatedTokenAddress "mint" "payer") "payer"
            (mintAmount (3 / 2) 0))
    ∧ (createUltraCheapTokenTransaction "payer" "mint" 100
          { name := "Token", symbol := "TKN", decimals := 0, supply := 3 / 2 }).instructions.getLast?
        = some (.mintTo "mint" (associatedTokenAddress "mint" "payer") "payer"
            (mintAmount (3 / 2) 0)) := by
  refine ⟨by norm_num [mintAmount], by norm_num [mintAmount], by norm_num,
    by norm_num [mintAmount], ?_, ?_⟩ <;> rfl

/-- C4: on a mint whose mint authority is already `None`, a
RevokeMintAuthority request does fail with no transaction constructed, but —
because the holder check `mintAuthority !== publicKey.toString()` fires before
the `!mintAuthority` check — the reported error is the not-authority-holder
one, never the already-revoked one, which is unreachable. -/
theorem revoke_none_authority_reports_not_holder :
    revokeOnSubmit (some "alice")
        (some { mintAuthority := none, freezeAuthority := some "alice" })
        { tokenAddress := "mintX", revokeMintAuthority := true,
          revokeFreezeAuthority := false }
      = Outcome.failure "You do not have mint authority for this token."
    ∧ Outcome.failure "You do not have mint authority for this token."
      ≠ Outcome.failure "Mint authority has already been revoked for this token." := by
  exact ⟨rfl, by decide⟩

/-- C5: a Freeze request whose resolved target account exists and is already
frozen always fails with the already-frozen error, and no transaction is
constructed, whatever the live account probe returns. -/
theorem freeze_already_frozen_fails (pk : String) (liveAccountExists : Bool)
    (data : FreezeFormData) (h : data.action = .freeze) :
    freezeOnSubmit (some pk) (some { accountExists := true, frozen := true })
        liveAccountExists data
      = Outcome.failure "Cannot freeze account - it is already frozen." := by
  obtain ⟨ta, tg, a⟩ := data
  cases h
  rfl

/-- Witness for C5 at a concrete request. -/
theorem freeze_already_frozen_fails_witness :
    freezeOnSubmit (some "alice") (some { accountExists := true, frozen := true }) true
        { tokenAddress := "mintX", targetAddress := "bob", action := .freeze }
      = Outcome.failure "Cannot freeze account - it is already frozen." :=
  freeze_already_frozen_fails "alice" true
    { tokenAddress := "mintX", targetAddress := "bob", action := .freeze } rfl

/-- C6: an Unfreeze request whose resolved target account does not exist or is
not frozen always fails (with the does-not-exist or already-unfrozen error)
and produces no plan; when the resolved account exists and is frozen (and the
in-handler probe agrees it exists), the plan is exactly one ThawAccount with
no account-creation step. -/
theorem unfreeze_requires_existing_frozen_account (pk : String)
    (ai : FreezeAccountInfo) (live : Bool) (data : FreezeFormData)
    (h : data.action = .unfreeze) :
    ((ai.accountExists = false ∨ ai.frozen = false) →
      freezeOnSubmit (some pk) (some ai) live data
        = Outcome.failure (if ai.accountExists then
            "Cannot unfreeze account - it is already unfrozen."
          else "Cannot unfreeze account - it does not exist."))
    ∧ (ai.accountExists = true → ai.frozen = true → live = true →
        freezeOnSubmit (some pk) (some ai) live data
          = Outcome.submitted { instructions := [Instr.thawAccount
              (associatedTokenAddress data.tokenAddress data.targetAddress)
              data.tokenAddress pk] }) := by
  obtain ⟨ta, tg, a⟩ := data
  cases h
  obtain ⟨e, f⟩ := ai
  refine ⟨?_, ?_⟩
  · intro h1
    cases e
    · rfl
    · cases f
      · rfl
      · rcases h1 with h | h <;> exact absurd h (by decide)
  · intro h2 h3 hl
    cases e
    · simp at h2
    · cases f
      · simp at h3
      · cases hl
        rfl

/-- Witness for C6: the failure case at a nonexistent account and the
single-ThawAccount plan at an existing frozen account. -/
theorem unfreeze_requires_existing_frozen_account_witness :
    freezeOnSubmit (some "alice") (some { accountExists := false, frozen := false }) true
        { tokenAddress := "mintX", targetAddress := "bob", action := .unfreeze }
      = Outcome.failure "Cannot unfreeze account - it does not exist."
    ∧ freezeOnSubmit (some "alice") (some { accountExists := true, frozen := true }) true
        { tokenAddress := "mintX", targetAddress := "bob", action := .unfreeze }
      = Outcome.submitted { instructions := [Instr.thawAccount
          (associatedTokenAddress "mintX" "bob") "mintX" "alice"] } := by
  constructor
  · exact (unfreeze_requires_existing_frozen_account "alice"
      { accountExists := false, frozen := false } true
      { tokenAddress := "mintX", targetAddress := "bob", action := .unfreeze } rfl).1
      (Or.inl rfl)
  · exact (unfreeze_requires_existing_frozen_account "alice"
      { accountExists := true, frozen := true } true
      { tokenAddress := "mintX", targetAddress := "bob", action := .unfreeze } rfl).2
      rfl rfl rfl

/-- C7: when the recipient's associated account already exists, the mint plan
is exactly one MintTo instruction (no CreateAssociatedAccount); when it does
not exist, a CreateAssociatedAccount for that same account precedes the MintTo
in the same plan. -/
theorem mint_plan_creation_guard (pk : String) (decimals : ℕ)
    (recipientAccountExists : Bool) (data : MintFormData) :
    (recipientAccountExists = true →
      mintOnSubmit (some pk) (some decimals) recipientAccountExists data
        = Outcome.submitted { instructions := [Instr.mintTo data.tokenAddress
            (associatedTokenAddress data.tokenAddress data.recipientAddress) pk
            ((⌊data.amount * 10 ^ decimals⌋ : ℤ) : ℚ)] })
    ∧ (recipientAccountExists = false →
      mintOnSubmit (some pk) (some decimals) recipientAccountExists data
        = Outcome.submitted { instructions :=
            [Instr.createAssociatedTokenAccount pk
              (associatedTokenAddress data.tokenAddress data.recipientAddress)
              data.recipientAddress data.tokenAddress,
             Instr.mintTo data.tokenAddress
              (associatedTokenAddress data.tokenAddress data.recipientAddress) pk
              ((⌊data.amount * 10 ^ decimals⌋ : ℤ) : ℚ)] }) := by
  cases recipientAccountExists
  · exact ⟨fun h => (nomatch h), fun _ => rfl⟩
  · exact ⟨fun _ => rfl, fun h => (nomatch h)⟩

/-- Witness for C7 at a concrete request in both resolution cases. -/
theorem mint_plan_creation_guard_witness :
    mintOnSubmit (some "alice") (some 0) true ⟨"mintX", "bob", 1⟩
      = Outcome.submitted { instructions := [Instr.mintTo "mintX"
          (associatedTokenAddress "mintX" "bob") "alice" ((⌊(1 : ℚ) * 10 ^ (0 : ℕ)⌋ : ℤ) : ℚ)] }
    ∧ mintOnSubmit (some "alice") (some 0) false ⟨"mintX", "bob", 1⟩
      = Outcome.submitted { instructions :=
          [Instr.createAssociatedTokenAccount "alice" (associatedTokenAddress "mintX" "bob")
            "bob" "mintX",
           Instr.mintTo "mintX" (associatedTokenAddress "mintX" "bob") "alice"
            ((⌊(1 : ℚ) * 10 ^ (0 : ℕ)⌋ : ℤ) : ℚ)] } := by
  constructor
  · exact (mint_plan_creation_guard "alice" 0 true ⟨"mintX", "bob", 1⟩).1 rfl
  · exact (mint_plan_creation_guard "alice" 0 false ⟨"mintX", "bob", 1⟩).2 rfl

/-- C8 counterexample: at a resolved raw balance of 0 the claim fails on both
halves — a scaled amount 1 > 0 is rejected with the no-tokens-to-burn error
rather than the insufficient-balance one, and a scaled amount equal to the
balance (0) does not pass validation either. -/
theorem burn_zero_balance_refutes_claim :
    ⌊(1 : ℚ) * 10 ^ (0 : ℕ)⌋ > ((0 : ℕ) : ℤ)
    ∧ burnOnSubmit (some "alice") (some { decimals := 0, userBalanceRaw := some 0 })
        { tokenAddress := "mintX", amount := 1 }
      = BurnOutcome.failure .noTokensToBurn
    ∧ BurnOutcome.failure .noTokensToBurn ≠ BurnOutcome.failure .insufficientBalance
    ∧ ⌊((1 : ℚ) - 1) * 10 ^ (0 : ℕ)⌋ = ((0 : ℕ) : ℤ)
    ∧ burnOnSubmit (some "alice") (some { decimals := 0, userBalanceRaw := some 0 })
        { tokenAddress := "mintX", amount := 1 - 1 }
      ≠ BurnOutcome.submitted { instructions := [Instr.burn
          (associatedTokenAddress "mintX" "alice") "mintX" "alice"
          ⌊((1 : ℚ) - 1) * 10 ^ (0 : ℕ)⌋] } := by
  refine ⟨by norm_num, rfl, by decide, by norm_num, by decide⟩

/-- C8 as amended: with a positive resolved raw balance, a scaled burn amount
strictly above the balance fails with the insufficient-balance error before
any transaction is constructed, and a scaled amount exactly equal to the
balance passes validation with a plan of exactly one Burn instruction; a zero
resolved balance instead always fails with the no-tokens-to-burn error. -/
theorem burn_balance_validation (pk : String) (info : BurnTokenInfo) (bal : ℕ)
    (data : BurnFormData) (hbal : info.userBalanceRaw = some bal) :
    (bal = 0 → burnOnSubmit (some pk) (some info) data
      = BurnOutcome.failure .noTokensToBurn)
    ∧ (0 < bal → ⌊data.amount * 10 ^ info.decimals⌋ > (bal : ℤ) →
        burnOnSubmit (some pk) (some info) data
          = BurnOutcome.failure .insufficientBalance)
    ∧ (0 < bal → ⌊data.amount * 10 ^ info.decimals⌋ = (bal : ℤ) →
        burnOnSubmit (some pk) (some info) data
          = BurnOutcome.submitted { instructions := [Instr.burn
              (associatedTokenAddress data.tokenAddress pk) data.tokenAddress pk
              ⌊data.amount * 10 ^ info.decimals⌋] }) := by
  obtain ⟨dec, ub⟩ := info
  cases hbal
  refine ⟨?_, ?_, ?_⟩
  · intro h; cases h; rfl
  · intro hpos hgt
    simp [burnOnSubmit, Transaction.add, hpos.ne', hgt]
  · intro hpos heq
    simp [burnOnSubmit, Transaction.add, hpos.ne', heq]

/-- Witness for C8's amended theorem: balance 0 rejects, balance 1 with scaled
amount 2 is insufficient, balance 1 with scaled amount 1 burns exactly. -/
theorem burn_balance_validation_witness :
    burnOnSubmit (some "alice") (some { decimals := 0, userBalanceRaw := some 0 })
        { tokenAddress := "mintX", amount := 1 }
      = BurnOutcome.failure .noTokensToBurn
    ∧ burnOnSubmit (some "alice") (some { decimals := 0, userBalanceRaw := some 1 })
        { tokenAddress := "mintX", amount := 2 }
      = BurnOutcome.failure .insufficientBalance
    ∧ burnOnSubmit (some "alice") (some { decimals := 0, userBalanceRaw := some 1 })
        { tokenAddress := "mintX", amount := 1 }
      = BurnOutcome.submitted { instructions := [Instr.burn
          (associatedTokenAddress "mintX" "alice") "mintX" "alice"
          ⌊(1 : ℚ) * 10 ^ (0 : ℕ)⌋] } := by
  refine ⟨?_, ?_, ?_⟩
  · exact (burn_balance_validation "alice" { decimals := 0, userBalanceRaw := some 0 } 0
      { tokenAddress := "mintX", amount := 1 } rfl).1 rfl
  · exact (burn_balance_validation "alice" { decimals := 0, userBalanceRaw := some 1 } 1
      { tokenAddress := "mintX", amount := 2 } rfl).2.1 (by norm_num) (by norm_num)
  · exact (burn_balance_validation "alice" { decimals := 0, userBalanceRaw := some 1 } 1
      { tokenAddress := "mintX", amount := 1 } rfl).2.2 (by norm_num) (by norm_num)

/-- C9: when `getFeeForMessage` is available but the ledger returns a `null`
fee value (no fee quote), both estimators do not fail: JavaScript addition
coerces the `null` to 0 and a partial lamport total omitting the per-signature
fee is returned silently — only the fallback path checks for a `null`
calculator and throws. -/
theorem estimate_fee_null_quote_partial_result :
    estimateCreateTokenFee
      { mintRent := .ok 100, tokenAccountRent := .ok 200, metadataAccountRent := .ok 300,
        getFeeForMessage := some none, feeCalculator := .ok none } 2
      = Except.ok (100 + 200 + 300 + metaplexProtocolFee + 0)
    ∧ estimateUltraCheapTokenFee
      { mintRent := .ok 100, tokenAccountRent := .ok 200, metadataAccountRent := .ok 300,
        getFeeForMessage := some none, feeCalculator := .ok none } 2
      = Except.ok (100 + 200 + 0)
    ∧ estimateCreateTokenFee
      { mintRent := .ok 100, tokenAccountRent := .ok 200, metadataAccountRent := .ok 300,
        getFeeForMessage := none, feeCalculator := .ok none } 2
      = Except.error "Failed to fetch fee calculator for fee estimation" := by
  exact ⟨rfl, rfl, rfl⟩

/-- C10: a revoke request selecting neither authority is rejected by the
schema refinement before `onSubmit` runs; every transaction that reaches
submission contains at least one SetAuthority instruction, and when both
authorities are selected the plan is SetAuthority(Mint, null) then
SetAuthority(Freeze, null) in that order. -/
theorem revoke_requires_selected_authority (pk : String) (info : RevokeTokenInfo)
    (d : RevokeFormData) :
    (revokeSchemaFlagsOk d = false → revokeFormSubmit (some pk) (some info) d = none)
    ∧ (∀ t : Transaction,
        revokeFormSubmit (some pk) (some info) d = some (Outcome.submitted t) →
          t.instructions.any Instr.isSetAuthority = true
          ∧ (d.revokeMintAuthority = true → d.revokeFreezeAuthority = true →
              t.instructions =
                [Instr.setAuthority d.tokenAddress pk .mintTokens none,
                 Instr.setAuthority d.tokenAddress pk .freezeAccount none])) := by
  obtain ⟨ta, rm, rf⟩ := d
  constructor
  · intro h
    simp [revokeSchemaFlagsOk] at h
    simp [revokeFormSubmit, revokeSchemaFlagsOk, h.1, h.2]
  · intro t ht
    cases rm <;> cases rf
    · simp [revokeFormSubmit, revokeSchemaFlagsOk] at ht
    · simp [revokeFormSubmit, revokeSchemaFlagsOk, revokeOnSubmit, Transaction.add] at ht
      repeat' split at ht
      all_goals first
        | exact Outcome.noConfusion ht
        | (cases ht; exact ⟨rfl, fun h1 h2 => (nomatch h1)⟩)
    · simp [revokeFormSubmit, revokeSchemaFlagsOk, revokeOnSubmit, Transaction.add] at ht
      repeat' split at ht
      all_goals first
        | exact Outcome.noConfusion ht
        | (cases ht; exact ⟨rfl, fun h1 h2 => (nomatch h2)⟩)
    · simp [revokeFormSubmit, revokeSchemaFlagsOk, revokeOnSubmit, Transaction.add] at ht
      repeat' split at ht
      all_goals first
        | exact Outcome.noConfusion ht
        | (cases ht; exact ⟨rfl, fun h1 h2 => rfl⟩)

/-- Witness for C10: the no-flag request is rejected by validation, and the
both-flags request submits the mint-then-freeze SetAuthority pair. -/
theorem revoke_requires_selected_authority_witness :
    revokeFormSubmit (some "alice")
        (some { mintAuthority := some "alice", freezeAuthority := some "alice" })
        ⟨"mintX", false, false⟩ = none
    ∧ ([Instr.setAuthority "mintX" "alice" AuthorityType.mintTokens none,
        Instr.setAuthority "mintX" "alice" AuthorityType.freezeAccount none].any
          Instr.isSetAuthority) = true
    ∧ (Transaction.mk [Instr.setAuthority "mintX" "alice" AuthorityType.mintTokens none,
        Instr.setAuthority "mintX" "alice" AuthorityType.freezeAccount none]).instructions
      = [Instr.setAuthority "mintX" "alice" AuthorityType.mintTokens none,
         Instr.setAuthority "mintX" "alice" AuthorityType.freezeAccount none] := by
  refine ⟨?_, ?_, ?_⟩
  · exact (revoke_requires_selected_authority "alice"
      ⟨some "alice", some "alice"⟩ ⟨"mintX", false, false⟩).1 rfl
  · exact ((revoke_requires_selected_authority "alice"
      ⟨some "alice", some "alice"⟩ ⟨"mintX", true, true⟩).2
      ⟨[Instr.setAuthority "mintX" "alice" AuthorityType.mintTokens none,
        Instr.setAuthority "mintX" "alice" AuthorityType.freezeAccount none]⟩ rfl).1
  · exact ((revoke_requires_selected_authority "alice"
      ⟨some "alice", some "alice"⟩ ⟨"mintX", true, true⟩).2
      ⟨[Instr.setAuthority "mintX" "alice" AuthorityType.mintTokens none,
        Instr.setAuthority "mintX" "alice" AuthorityType.freezeAccount none]⟩ rfl).2 rfl rfl

end EasyMint
